import Mathlib

/-!
Verification of the gallery controller in src/src/pages/Index.tsx.

The component keeps three pieces of state: the list of uploaded image
records, an uploading flag, and an optional staged (selected) file.  Each
handler is embedded as a pure function from the current state and the
outcome of the network interaction to the new state together with the list
of toast notifications it raises.
-/

namespace Gallery

/-- The status tag of a record, `"analyzing" | "completed"` in the source. -/
inductive Status where
  | analyzing
  | completed
deriving DecidableEq, Repr

/-- The `UploadedImage` interface of the source (all optional fields kept). -/
structure UploadedImage where
  id : String
  fileName : String
  originalName : Option String := none
  mimeType : Option String := none
  size : Option Nat := none
  uploadedAt : String := ""
  description : String := ""
  status : Option Status := none
deriving DecidableEq, Repr

/-- A candidate file, with the properties the validation reads. -/
structure File where
  name : String
  type : String
  size : Nat
deriving DecidableEq, Repr

/-- A toast notification, as raised through the `sonner` toast API. -/
inductive Toast where
  | error (msg : String)
  | success (msg : String)
deriving DecidableEq, Repr

/-- The reactive state held by the `Index` component. -/
structure GalleryState where
  images : List UploadedImage
  isUploading : Bool
  selectedFile : Option File
deriving DecidableEq, Repr

/-- The initial state: empty list, not uploading, no staged file. -/
def initState : GalleryState :=
  { images := [], isUploading := false, selectedFile := none }

/-- Outcome of the `GET /api/images` fetch as observed by `fetchImages`:
the parsed JSON array on a 2xx response, a non-ok response, or a thrown
error (network failure or body parse failure). -/
inductive FetchOutcome where
  | ok (data : List UploadedImage)
  | httpError
  | netThrow
deriving DecidableEq, Repr

/-- Outcome of the `POST /api/upload` request as observed by
`handleUpload`: the parsed record on a 2xx response, a non-ok response
with the optional `message` field parsed from its JSON body, or a thrown
error carrying the message of the `Error` object when there is one. -/
inductive UploadOutcome where
  | success (record : UploadedImage)
  | httpError (bodyMessage : Option String)
  | netThrow (errMessage : Option String)
deriving DecidableEq, Repr

/-- Outcome of the `DELETE /api/image/:id` request as observed by
`handleDelete`. -/
inductive DeleteOutcome where
  | ok
  | httpError
  | netThrow
deriving DecidableEq, Repr

/-- Model of the JavaScript method `String.prototype.startsWith`: the
second string is a prefix of the character sequence of the first. -/
def stringStartsWith (s p : String) : Bool :=
  p.data.isPrefixOf s.data

/-- Tag a record as completed, as `\x7b ...img, status: "completed" \x7d`
does in the source. -/
def tagCompleted (img : UploadedImage) : UploadedImage :=
  { img with status := some Status.completed }

/-- `fetchImages` (Index.tsx lines 29-45): on an ok response, replaces the
whole list with the fetched array, every record tagged completed; on a
non-ok response the `if` has no else branch so nothing happens; on a
thrown error the catch raises the failure toast. -/
def fetchImages (s : GalleryState) (o : FetchOutcome) :
    GalleryState × List Toast :=
  match o with
  | FetchOutcome.ok data =>
      ({ s with images := data.map tagCompleted }, [])
  | FetchOutcome.httpError => (s, [])
  | FetchOutcome.netThrow => (s, [Toast.error "Failed to load images"])

/-- `handleFileSelect` (Index.tsx lines 47-65): returns silently when the
event carries no file; rejects a non-image media type, then an oversized
file; otherwise stores the file as the staged candidate. -/
def handleFileSelect (s : GalleryState) (file : Option File) :
    GalleryState × List Toast :=
  match file with
  | none => (s, [])
  | some f =>
      if stringStartsWith f.type "image/" = false then
        (s, [Toast.error "Please select a valid image file (JPEG/PNG)"])
      else if f.size > 5 * 1024 * 1024 then
        (s, [Toast.error "File size must be less than 5MB"])
      else
        ({ s with selectedFile := some f },
         [Toast.success "Image selected! Click upload to analyze."])

/-- The toast message composed in the catch block of `handleUpload`:
the thrown message when the value is an `Error`, else "Unknown error". -/
def uploadCatchMessage (errMessage : Option String) : String :=
  "Upload failed: " ++ errMessage.getD "Unknown error"

/-- `handleUpload` (Index.tsx lines 67-117): with no staged file, reports
an error and returns before any network interaction; on an ok response,
prepends the parsed record tagged completed and clears the staged file;
on a non-ok response, throws `errorData.message || "Upload failed"` which
the catch surfaces; on a thrown error, surfaces its message.  The
`finally` clause leaves `isUploading` false in every path that made the
request. -/
def handleUpload (s : GalleryState) (o : UploadOutcome) :
    GalleryState × List Toast :=
  match s.selectedFile with
  | none => (s, [Toast.error "Please select an image first"])
  | some _ =>
      match o with
      | UploadOutcome.success r =>
          ({ images := tagCompleted r :: s.images,
             isUploading := false,
             selectedFile := none },
           [Toast.success "Image uploaded and analyzed successfully!"])
      | UploadOutcome.httpError bodyMessage =>
          ({ s with isUploading := false },
           [Toast.error ("Upload failed: " ++ bodyMessage.getD "Upload failed")])
      | UploadOutcome.netThrow errMessage =>
          ({ s with isUploading := false },
           [Toast.error (uploadCatchMessage errMessage)])

/-- `handleDelete` (Index.tsx lines 122-138): on an ok response, filters
out the records whose id equals the given id; on a non-ok response or a
thrown error, leaves the list alone and raises the corresponding toast. -/
def handleDelete (s : GalleryState) (id : String) (o : DeleteOutcome) :
    GalleryState × List Toast :=
  match o with
  | DeleteOutcome.ok =>
      ({ s with images := s.images.filter (fun img => img.id != id) },
       [Toast.success "Image deleted successfully"])
  | DeleteOutcome.httpError =>
      (s, [Toast.error "Failed to delete image"])
  | DeleteOutcome.netThrow =>
      (s, [Toast.error "An error occurred while deleting the image"])

/-- States reachable from the initial state by any sequence of handler
invocations, with arbitrary server outcomes. -/
inductive Reachable : GalleryState → Prop where
  | init : Reachable initState
  | fetch (s : GalleryState) (o : FetchOutcome) :
      Reachable s → Reachable (fetchImages s o).1
  | select (s : GalleryState) (f : Option File) :
      Reachable s → Reachable (handleFileSelect s f).1
  | upload (s : GalleryState) (o : UploadOutcome) :
      Reachable s → Reachable (handleUpload s o).1
  | delete (s : GalleryState) (id : String) (o : DeleteOutcome) :
      Reachable s → Reachable (handleDelete s id o).1

/-- States reachable when the backend behaves as the spec assumes: every
successful list response carries pairwise-distinct ids, and every
successful upload response carries an id not already present in the
collection. -/
inductive ReachableFresh : GalleryState → Prop where
  | init : ReachableFresh initState
  | fetch (s : GalleryState) (o : FetchOutcome) :
      (∀ d, o = FetchOutcome.ok d → (d.map (fun i => i.id)).Nodup) →
      ReachableFresh s → ReachableFresh (fetchImages s o).1
  | select (s : GalleryState) (f : Option File) :
      ReachableFresh s → ReachableFresh (handleFileSelect s f).1
  | upload (s : GalleryState) (o : UploadOutcome) :
      (∀ r, o = UploadOutcome.success r →
        r.id ∉ s.images.map (fun i => i.id)) →
      ReachableFresh s → ReachableFresh (handleUpload s o).1
  | delete (s : GalleryState) (id : String) (o : DeleteOutcome) :
      ReachableFresh s → ReachableFresh (handleDelete s id o).1

/-- A concrete valid image file, used to instantiate theorems. -/
def sampleFile : File :=
  { name := "a.png", type := "image/png", size := 1 }

/-- A concrete record, used to instantiate theorems. -/
def sampleRecord : UploadedImage :=
  { id := "a", fileName := "a.png" }

/-- A concrete state with an empty list and a staged file. -/
def stagedState : GalleryState :=
  { images := [], isUploading := false, selectedFile := some sampleFile }

/-- A concrete state whose list already holds the tagged sample record
while the sample file is staged. -/
def prevWithRecord : GalleryState :=
  { images := [tagCompleted sampleRecord], isUploading := false,
    selectedFile := some sampleFile }

/-- A concrete state holding one record and no staged file. -/
def listedState : GalleryState :=
  { images := [sampleRecord], isUploading := false, selectedFile := none }

/-- The state reached by selecting the sample file and uploading it with
the server answering the same record twice in a row. -/
def dupTraceState : GalleryState :=
  (handleUpload
    ((handleFileSelect
      ((handleUpload
        ((handleFileSelect initState (some sampleFile)).1)
        (UploadOutcome.success sampleRecord)).1)
      (some sampleFile)).1)
    (UploadOutcome.success sampleRecord)).1

/-- File selection never changes the image list, whatever the validation
decides. -/
theorem handleFileSelect_images (s : GalleryState) (f : Option File) :
    (handleFileSelect s f).1.images = s.images := by
  cases f with
  | none => rfl
  | some f =>
      simp only [handleFileSelect]
      split_ifs <;> rfl

/-- Claim C10: a selection event carrying no file returns without any
notification and leaves the whole state, in particular the staged
candidate and the image collection, unchanged. -/
theorem handleFileSelect_none_noop (s : GalleryState) :
    handleFileSelect s none = (s, []) :=
  rfl

/-- Claim C5: a successful delete leaves exactly the records whose id
differs from the given id, keeps them in their prior relative order, and
every surviving record has an id different from the given one. -/
theorem handleDelete_ok_removes_matching (s : GalleryState) (id : String) :
    (handleDelete s id DeleteOutcome.ok).1.images
        = s.images.filter (fun img => img.id != id)
    ∧ (∀ img ∈ (handleDelete s id DeleteOutcome.ok).1.images, img.id ≠ id)
    ∧ (handleDelete s id DeleteOutcome.ok).1.images.Sublist s.images := by
  refine ⟨rfl, ?_, ?_⟩
  · intro img h
    have h2 : img ∈ s.images.filter (fun img => img.id != id) := h
    simpa using (List.mem_filter.mp h2).2
  · exact List.filter_sublist _

/-- Claim C6: a failed delete, whether a non-success response or a thrown
network error, leaves the state unchanged and raises the corresponding
failure toast. -/
theorem handleDelete_failure_frame (s : GalleryState) (id : String) :
    handleDelete s id DeleteOutcome.httpError
        = (s, [Toast.error "Failed to delete image"])
    ∧ handleDelete s id DeleteOutcome.netThrow
        = (s, [Toast.error "An error occurred while deleting the image"]) :=
  ⟨rfl, rfl⟩

/-- Claim C9: with no staged candidate, an upload attempt reports an error,
leaves the state unchanged, and its result does not depend on the network
outcome at all, reflecting that no request is issued. -/
theorem handleUpload_noStaged (s : GalleryState)
    (h : s.selectedFile = none) (o o2 : UploadOutcome) :
    handleUpload s o = (s, [Toast.error "Please select an image first"])
    ∧ handleUpload s o = handleUpload s o2 := by
  have e : ∀ o3, handleUpload s o3
      = (s, [Toast.error "Please select an image first"]) := by
    intro o3
    unfold handleUpload
    rw [h]
  exact ⟨e o, (e o).trans (e o2).symm⟩

/-- Witness for claim C9 at the initial state. -/
theorem handleUpload_noStaged_witness :
    handleUpload initState (UploadOutcome.netThrow none)
        = (initState, [Toast.error "Please select an image first"])
    ∧ handleUpload initState (UploadOutcome.netThrow none)
        = handleUpload initState (UploadOutcome.httpError none) :=
  handleUpload_noStaged initState rfl _ _

/-- Counterexample to claim C2: on a non-success response that does not
throw, `fetchImages` leaves the state alone but raises NO toast, so no
failure notice is surfaced in that failure mode. -/
theorem fetchImages_httpError_silent :
    (fetchImages listedState FetchOutcome.httpError).1 = listedState
    ∧ (fetchImages listedState FetchOutcome.httpError).2 = [] :=
  ⟨rfl, rfl⟩

/-- Claim C2 (amended): a failed `fetchImages` leaves the prior state
untouched in both failure modes; a thrown network error surfaces a failure
notice, while a non-success response surfaces nothing. -/
theorem fetchImages_failure_frame (s : GalleryState) :
    fetchImages s FetchOutcome.netThrow
        = (s, [Toast.error "Failed to load images"])
    ∧ fetchImages s FetchOutcome.httpError = (s, []) :=
  ⟨rfl, rfl⟩

/-- Claim C8: a file with a non-image media type, or one strictly larger
than 5 * 1024 * 1024 bytes, is rejected with an error toast and the state
(in particular the staged candidate) is unchanged; an image file of
exactly 5 * 1024 * 1024 bytes is accepted and staged. -/
theorem handleFileSelect_validation (s : GalleryState) (f : File) :
    (stringStartsWith f.type "image/" = false ∨ 5 * 1024 * 1024 < f.size →
      (handleFileSelect s (some f)).1 = s
      ∧ ∃ m, (handleFileSelect s (some f)).2 = [Toast.error m])
    ∧ (stringStartsWith f.type "image/" = true → f.size = 5 * 1024 * 1024 →
      handleFileSelect s (some f)
          = ({ s with selectedFile := some f },
             [Toast.success "Image selected! Click upload to analyze."])) := by
  constructor
  · rintro (hty | hsz)
    · exact ⟨by simp [handleFileSelect, hty],
        "Please select a valid image file (JPEG/PNG)",
        by simp [handleFileSelect, hty]⟩
    · cases hb : stringStartsWith f.type "image/" with
      | false =>
          exact ⟨by simp [handleFileSelect, hb],
            "Please select a valid image file (JPEG/PNG)",
            by simp [handleFileSelect, hb]⟩
      | true =>
          exact ⟨by simp [handleFileSelect, hb, hsz],
            "File size must be less than 5MB",
            by simp [handleFileSelect, hb, hsz]⟩
  · intro hty hsz
    simp [handleFileSelect, hty, hsz]

/-- Witness for claim C8: a text file is rejected without touching the
state, and an image file of exactly the size bound is accepted. -/
theorem handleFileSelect_validation_witness :
    ((handleFileSelect initState
        (some { name := "a.txt", type := "text/plain", size := 10 })).1
          = initState
      ∧ ∃ m, (handleFileSelect initState
          (some { name := "a.txt", type := "text/plain", size := 10 })).2
            = [Toast.error m])
    ∧ handleFileSelect initState
        (some { name := "b.png", type := "image/png", size := 5 * 1024 * 1024 })
      = ({ initState with
            selectedFile :=
              some { name := "b.png", type := "image/png", size := 5 * 1024 * 1024 } },
         [Toast.success "Image selected! Click upload to analyze."]) :=
  ⟨(handleFileSelect_validation initState _).1 (Or.inl (by decide)),
   (handleFileSelect_validation initState _).2 (by decide) rfl⟩

/-- Counterexample to claim C3: when the prior collection already holds a
record equal to the tagged response record, a successful upload leaves the
record appearing twice in the resulting collection, not exactly once. -/
theorem upload_success_record_twice :
    ((handleUpload prevWithRecord
        (UploadOutcome.success sampleRecord)).1.images.count
          (tagCompleted sampleRecord)) = 2 := by
  decide

/-- Claim C3 (amended): a successful upload produces exactly the tagged
response record prepended to the prior collection, so it is the first
element and all prior records follow unchanged in order; its tag is
completed; the staged candidate is cleared; and whenever the tagged record
was not already present it appears exactly once. -/
theorem upload_success_prepends (s : GalleryState) (f : File)
    (r : UploadedImage) (h : s.selectedFile = some f) :
    (handleUpload s (UploadOutcome.success r)).1.images
        = tagCompleted r :: s.images
    ∧ (handleUpload s (UploadOutcome.success r)).1.selectedFile = none
    ∧ (tagCompleted r).status = some Status.completed
    ∧ (tagCompleted r ∉ s.images →
        (handleUpload s (UploadOutcome.success r)).1.images.count
            (tagCompleted r) = 1) := by
  have himg : (handleUpload s (UploadOutcome.success r)).1.images
      = tagCompleted r :: s.images := by
    simp [handleUpload, h]
  refine ⟨himg, by simp [handleUpload, h], rfl, ?_⟩
  intro hnot
  rw [himg, List.count_cons_self, List.count_eq_zero_of_not_mem hnot]

/-- Witness for claim C3 at a concrete staged state with an empty prior
collection. -/
theorem upload_success_prepends_witness :
    (handleUpload stagedState
        (UploadOutcome.success sampleRecord)).1.images.count
          (tagCompleted sampleRecord) = 1 :=
  (upload_success_prepends stagedState sampleFile sampleRecord rfl).2.2.2
    (by decide)

/-- Counterexample to claim C4: on a thrown network error whose `Error`
object carries a message, the surfaced notice embeds that message, which
is neither parsed from a response body nor one of the generic fallback
messages of the handler. -/
theorem upload_netThrow_nongeneric_message :
    (handleUpload stagedState
        (UploadOutcome.netThrow (some "connection reset"))).2
      = [Toast.error "Upload failed: connection reset"]
    ∧ (handleUpload stagedState
        (UploadOutcome.netThrow (some "connection reset"))).2
      ≠ [Toast.error "Upload failed: Unknown error"]
    ∧ (handleUpload stagedState
        (UploadOutcome.netThrow (some "connection reset"))).2
      ≠ [Toast.error "Upload failed: Upload failed"] :=
  ⟨rfl, by decide, by decide⟩

/-- Claim C4 (amended): every failed upload leaves the collection and the
staged candidate unchanged; a non-success response surfaces the message
field of its body when present and the generic fallback otherwise, while a
thrown error surfaces the message of the `Error` object when available and
the generic fallback otherwise. -/
theorem upload_failure_frame (s : GalleryState) (f : File)
    (h : s.selectedFile = some f) :
    (∀ bm, (handleUpload s (UploadOutcome.httpError bm)).1.images = s.images
      ∧ (handleUpload s (UploadOutcome.httpError bm)).1.selectedFile = some f
      ∧ (handleUpload s (UploadOutcome.httpError bm)).2
          = [Toast.error ("Upload failed: " ++ bm.getD "Upload failed")])
    ∧ (∀ em, (handleUpload s (UploadOutcome.netThrow em)).1.images = s.images
      ∧ (handleUpload s (UploadOutcome.netThrow em)).1.selectedFile = some f
      ∧ (handleUpload s (UploadOutcome.netThrow em)).2
          = [Toast.error ("Upload failed: " ++ em.getD "Unknown error")]) := by
  constructor
  · intro bm
    refine ⟨?_, ?_, ?_⟩ <;> simp [handleUpload, h]
  · intro em
    refine ⟨?_, ?_, ?_⟩ <;> simp [handleUpload, h, uploadCatchMessage]

/-- Witness for claim C4 at a concrete staged state and a body message. -/
theorem upload_failure_frame_witness :
    (handleUpload stagedState (UploadOutcome.httpError (some "boom"))).1.images
        = stagedState.images
    ∧ (handleUpload stagedState
        (UploadOutcome.httpError (some "boom"))).1.selectedFile
          = some sampleFile
    ∧ (handleUpload stagedState (UploadOutcome.httpError (some "boom"))).2
        = [Toast.error ("Upload failed: " ++ (some "boom").getD "Upload failed")] :=
  (upload_failure_frame stagedState sampleFile rfl).1 (some "boom")

/-- Counterexample to claim C1: the upload handler prepends the response
record without any duplicate check, so a reachable state (two successful
uploads whose responses carry the same id) holds two records with equal
ids. -/
theorem reachable_state_with_duplicate_ids :
    Reachable dupTraceState
    ∧ ¬ (dupTraceState.images.map (fun i => i.id)).Nodup := by
  refine ⟨?_, by decide⟩
  exact Reachable.upload _ (UploadOutcome.success sampleRecord)
    (Reachable.select _ (some sampleFile)
      (Reachable.upload _ (UploadOutcome.success sampleRecord)
        (Reachable.select _ (some sampleFile) Reachable.init)))

/-- Claim C1 (amended): when every successful list response carries
pairwise-distinct ids and every successful upload response carries an id
not already present, all reachable collections have pairwise-distinct ids;
and a successful upload always places the tagged response record first,
with the prior collection following unchanged. -/
theorem fresh_reachable_nodup_ids :
    (∀ s, ReachableFresh s → (s.images.map (fun i => i.id)).Nodup)
    ∧ (∀ (s : GalleryState) (f : File) (r : UploadedImage),
        s.selectedFile = some f →
        (handleUpload s (UploadOutcome.success r)).1.images
            = tagCompleted r :: s.images) := by
  constructor
  · intro s hs
    induction hs with
    | init => simp [initState]
    | fetch s o hfresh _ ih =>
        cases o with
        | ok d =>
            have he : ((fetchImages s (FetchOutcome.ok d)).1.images.map
                (fun i => i.id)) = d.map (fun i => i.id) := by
              show ((d.map tagCompleted).map (fun i => i.id))
                  = d.map (fun i => i.id)
              rw [List.map_map]
              rfl
            rw [he]
            exact hfresh d rfl
        | httpError => exact ih
        | netThrow => exact ih
    | select s f _ ih =>
        rw [handleFileSelect_images]
        exact ih
    | upload s o hfresh _ ih =>
        cases hsel : s.selectedFile with
        | none =>
            have he : (handleUpload s o).1 = s := by
              simp [handleUpload, hsel]
            rw [he]
            exact ih
        | some f =>
            cases o with
            | success r =>
                have he : (handleUpload s (UploadOutcome.success r)).1.images
                    = tagCompleted r :: s.images := by
                  simp [handleUpload, hsel]
                rw [he, List.map_cons, List.nodup_cons]
                exact ⟨by simpa [tagCompleted] using hfresh r rfl, ih⟩
            | httpError bm =>
                have he : (handleUpload s (UploadOutcome.httpError bm)).1.images
                    = s.images := by
                  simp [handleUpload, hsel]
                rw [he]
                exact ih
            | netThrow em =>
                have he : (handleUpload s (UploadOutcome.netThrow em)).1.images
                    = s.images := by
                  simp [handleUpload, hsel]
                rw [he]
                exact ih
    | delete s id o _ ih =>
        cases o with
        | ok =>
            have hsub : ((handleDelete s id DeleteOutcome.ok).1.images.map
                (fun i => i.id)).Sublist (s.images.map (fun i => i.id)) :=
              List.Sublist.map _ (List.filter_sublist _)
            exact List.Nodup.sublist hsub ih
        | httpError => exact ih
        | netThrow => exact ih
  · intro s f r h
    simp [handleUpload, h]

/-- Witness for claim C1: distinct ids after a concrete fetch of one
record, and the prepend equation at a concrete staged state. -/
theorem fresh_reachable_nodup_ids_witness :
    (((fetchImages initState
        (FetchOutcome.ok [sampleRecord])).1.images.map (fun i => i.id)).Nodup)
    ∧ (handleUpload stagedState (UploadOutcome.success sampleRecord)).1.images
        = tagCompleted sampleRecord :: stagedState.images :=
  ⟨fresh_reachable_nodup_ids.1 _
      (ReachableFresh.fetch initState (FetchOutcome.ok [sampleRecord])
        (by intro d hd; cases hd; decide) ReachableFresh.init),
   fresh_reachable_nodup_ids.2 stagedState sampleFile sampleRecord rfl⟩

/-- Claim C7: every record held by any reachable state is tagged
completed; no handler ever puts an analyzing record into the collection. -/
theorem reachable_all_completed (s : GalleryState) (hs : Reachable s) :
    ∀ img ∈ s.images, img.status = some Status.completed := by
  induction hs with
  | init =>
      intro img h
      simp [initState] at h
  | fetch s o _ ih =>
      cases o with
      | ok d =>
          intro img h
          have h2 : img ∈ d.map tagCompleted := h
          rcases List.mem_map.mp h2 with ⟨x, _, rfl⟩
          rfl
      | httpError => exact ih
      | netThrow => exact ih
  | select s f _ ih =>
      intro img h
      rw [handleFileSelect_images] at h
      exact ih img h
  | upload s o _ ih =>
      cases hsel : s.selectedFile with
      | none =>
          intro img h
          have he : (handleUpload s o).1 = s := by
            simp [handleUpload, hsel]
          rw [he] at h
          exact ih img h
      | some f =>
          cases o with
          | success r =>
              intro img h
              have he : (handleUpload s (UploadOutcome.success r)).1.images
                  = tagCompleted r :: s.images := by
                simp [handleUpload, hsel]
              rw [he] at h
              rcases List.mem_cons.mp h with rfl | h2
              · rfl
              · exact ih img h2
          | httpError bm =>
              intro img h
              have he : (handleUpload s (UploadOutcome.httpError bm)).1.images
                  = s.images := by
                simp [handleUpload, hsel]
              rw [he] at h
              exact ih img h
          | netThrow em =>
              intro img h
              have he : (handleUpload s (UploadOutcome.netThrow em)).1.images
                  = s.images := by
                simp [handleUpload, hsel]
              rw [he] at h
              exact ih img h
  | delete s id o _ ih =>
      cases o with
      | ok =>
          intro img h
          have h2 : img ∈ s.images.filter (fun img => img.id != id) := h
          exact ih img (List.mem_filter.mp h2).1
      | httpError => exact ih
      | netThrow => exact ih

/-- Witness for claim C7: the one record held after a concrete fetch is
tagged completed. -/
theorem reachable_all_completed_witness :
    (tagCompleted sampleRecord).status = some Status.completed :=
  reachable_all_completed _
    (Reachable.fetch initState (FetchOutcome.ok [sampleRecord]) Reachable.init)
    (tagCompleted sampleRecord) (by decide)

end Gallery
